import Mathlib

/-
Verification of the image-analyzer backend's processing pipeline.

The development shallowly embeds the Python sources:
  * app/utils/image_utils.py        (extract_dominant_colors, hex formatting)
  * app/services/ai_service.py      (AIService.analyze_image response handling)
  * app/repositories/image_repository.py
        (ImageRepository.get_metadata / upsert_metadata /
         update_thumbnail_path / verify_image_ownership)
  * app/services/image_processing_service.py
        (ImageProcessingService.process_image)

External collaborators (Supabase tables and storage, PIL decoding and
quantization, the OpenAI client) are modelled as oracles in an `Env`
record: each oracle yields the value the collaborator would return, or an
error when the collaborator would raise.  The pipeline itself is a pure
function from the oracle environment and the initial store state to the
outcome (success or the raised error), the final store state, and the
trace of collaborator calls it performed, in order.
-/

namespace ImgAn

/-- Bytes of an image are kept abstract: a list of byte values. -/
def Bytes : Type := List Nat

instance : DecidableEq Bytes := inferInstanceAs (DecidableEq (List Nat))

/-! ### JSON values (the shape handed back by `json.loads`) -/

/-- A JSON value as produced by `json.loads` in `ai_service.py`. -/
inductive JVal : Type where
  | str (s : String)
  | num (n : Int)
  | bool (b : Bool)
  | null
  | arr (xs : List JVal)
  | obj (fields : List (String × JVal))

/-- Dictionary lookup `parsed.get(k)`: first binding of the key, if any
(JSON objects decoded by `json.loads` have distinct keys). -/
def jlookup (fields : List (String × JVal)) (k : String) : Option JVal :=
  (fields.find? (fun p => p.1 == k)).map (fun p => p.2)

/-! ### AIService.analyze_image (ai_service.py, lines 22-95) -/

/-- Outcome of the OpenAI chat-completions call followed by `json.loads`:
either the client raised, or it returned a body whose JSON parse either
failed or produced a `JVal`. -/
inductive AIOutcome : Type where
  | callFailed
  | body (parsed : Except Unit JVal)

/-- The distinguishable failures of `analyze_image`: the wrapped client
error, the wrapped `json.JSONDecodeError`, the `AttributeError` raised by
`parsed.get` when the parsed document is not an object, and the
`TypeError` raised when the `tags` value is not iterable. -/
inductive AErr : Type where
  | apiFailure
  | invalidJson
  | notAnObject
  | tagsNotIterable
deriving DecidableEq

/-- A whitespace character as stripped by Python's `str.strip()`. -/
def isPySpace (c : Char) : Bool :=
  c == ' ' || c == '\t' || c == '\n' || c == '\r' || c == '\x0b' || c == '\x0c'

/-- Model of `str.strip()`: drop leading and trailing whitespace. -/
def pyStrip (s : String) : String :=
  String.mk (((s.data.dropWhile isPySpace).reverse.dropWhile isPySpace).reverse)

/-- The tag comprehension `[tag.strip() for tag in parsed.get("tags", [])
if isinstance(tag, str)]`: an array keeps its string entries stripped, a
string iterates over its characters (each a one-character string), an
object iterates over its keys, anything else is not iterable and raises
`TypeError`. -/
def extractTags : JVal → Except AErr (List String)
  | JVal.arr xs =>
      Except.ok (xs.filterMap (fun x =>
        match x with
        | JVal.str s => some (pyStrip s)
        | _ => none))
  | JVal.str s => Except.ok (s.data.map (fun c => pyStrip (String.singleton c)))
  | JVal.obj fields => Except.ok (fields.map (fun p => pyStrip p.1))
  | _ => Except.error AErr.tagsNotIterable

/-- Model of `AIService.analyze_image` from the point the client call
resolves: parse failures raise, a non-object document raises, the tags are
filtered to strings, stripped, and truncated to `max_tags`, and the
`description` value is returned as parsed (defaulting to the empty string
when the key is absent).  The caller coerces a non-string description. -/
def analyze_image (max_tags : Nat) (out : AIOutcome) :
    Except AErr (List String × JVal) :=
  match out with
  | AIOutcome.callFailed => Except.error AErr.apiFailure
  | AIOutcome.body (Except.error _) => Except.error AErr.invalidJson
  | AIOutcome.body (Except.ok v) =>
      match v with
      | JVal.obj fields =>
          match extractTags ((jlookup fields "tags").getD (JVal.arr [])) with
          | Except.error e => Except.error e
          | Except.ok tags =>
              let description := (jlookup fields "description").getD (JVal.str "")
              Except.ok (tags.take max_tags, description)
      | _ => Except.error AErr.notAnObject

/-- The orchestrator's coercion `description if isinstance(description, str)
else ""` applied to the parsed description value. -/
def coerceDescription : JVal → String
  | JVal.str s => s
  | _ => ""

/-! ### Dominant-color extraction (image_utils.py, lines 18-30) -/

/-- Result of PIL's decode + resize + `quantize(colors=top_n,
method=MEDIANCUT)`: the flat palette list returned by `getpalette()` and
the `(count, palette_index)` pairs returned by `getcolors()`. -/
structure QuantResult : Type where
  palette : List Nat
  colorCounts : List (Nat × Nat)
deriving DecidableEq

/-- Python tuple comparison, reversed: `(c1, i1) ≥ (c2, i2)`
lexicographically.  `sorted(color_counts, reverse=True)` orders the pairs
descending under this relation. -/
def PairGe (a b : Nat × Nat) : Prop :=
  b.1 < a.1 ∨ (a.1 = b.1 ∧ b.2 ≤ a.2)

instance : DecidableRel PairGe := fun a b =>
  inferInstanceAs (Decidable (b.1 < a.1 ∨ (a.1 = b.1 ∧ b.2 ≤ a.2)))

instance : IsTotal (Nat × Nat) PairGe :=
  ⟨fun x y => by
    unfold PairGe
    omega⟩

instance : IsTrans (Nat × Nat) PairGe :=
  ⟨fun a b c hab hbc => by
    unfold PairGe at hab hbc ⊢
    omega⟩

/-- Model of `sorted(quantized.getcolors() or [], reverse=True)`. -/
def sortPairsDesc (l : List (Nat × Nat)) : List (Nat × Nat) :=
  l.insertionSort PairGe

/-- Python's `f"{n:02x}"`: lowercase hexadecimal, zero-padded on the left
to at least two digits. -/
def fmt02x (n : Nat) : String :=
  let ds := Nat.toDigits 16 n
  String.mk (List.replicate (2 - ds.length) '0' ++ ds)

/-- One iteration of the extraction loop: slice three palette entries at
`palette_index * 3` and format `"#%02x%02x%02x"`.  A slice shorter than
three entries makes the tuple unpacking raise `ValueError`. -/
def pickColor (palette : List Nat) (palette_index : Nat) : Except Unit String :=
  match palette.drop (palette_index * 3) with
  | r :: g :: b :: _ =>
      Except.ok ("#" ++ fmt02x r ++ fmt02x g ++ fmt02x b)
  | _ => Except.error ()

/-- The extraction loop over the selected `(count, palette_index)` pairs. -/
def pickColors (palette : List Nat) : List (Nat × Nat) → Except Unit (List String)
  | [] => Except.ok []
  | p :: ps => do
      let c ← pickColor palette p.2
      let cs ← pickColors palette ps
      Except.ok (c :: cs)

/-- Model of `extract_dominant_colors` from the quantization result on:
sort the population counts descending, keep the first `top_n`, and format
each cluster's palette color as a hex string. -/
def extract_dominant_colors (q : QuantResult) (top_n : Nat) :
    Except Unit (List String) :=
  pickColors q.palette ((sortPairsDesc q.colorCounts).take top_n)

/-! ### The metadata store (image_repository.py) -/

/-- One row of the `image_metadata` table, restricted to the columns the
pipeline reads or writes.  Optional columns are `NULL` until written. -/
structure MetaRecord : Type where
  status : String
  description : Option String
  tags : Option (List String)
  colors : Option (List String)
deriving DecidableEq

/-- The slice of the database relevant to one `image_id`: the row of the
`images` table (if any) and the rows of `image_metadata` for that image,
keyed by `user_id`. -/
structure Store : Type where
  image : Option (String × Option String)
  metas : List (String × MetaRecord)
deriving DecidableEq

/-- Model of `verify_image_ownership`: the `images` row exists and its
`user_id` equals the supplied one. -/
def verify_image_ownership (s : Store) (user_id : String) : Bool :=
  match s.image with
  | some img => img.1 == user_id
  | none => false

/-- Model of `get_metadata`: first `image_metadata` row matching both the
image and the supplied `user_id`. -/
def get_metadata (s : Store) (user_id : String) : Option MetaRecord :=
  (s.metas.find? (fun p => p.1 == user_id)).map (fun p => p.2)

/-- A supplied optional field overwrites the stored column; an absent one
is left out of the payload, so the stored column is unchanged. -/
def mergeField {α : Type} (new old : Option α) : Option α :=
  match new with
  | some x => some x
  | none => old

/-- Replace the first row keyed by `user_id` (the row found by
`get_metadata`, targeted via `.eq("id", existing["id"])`). -/
def updateFirst (user_id : String) (r : MetaRecord) :
    List (String × MetaRecord) → List (String × MetaRecord)
  | [] => []
  | p :: ps =>
      if p.1 == user_id then (user_id, r) :: ps
      else p :: updateFirst user_id r ps

/-- Model of `upsert_metadata`: build the payload (status always, the
optional fields only when supplied), then update the existing row or
insert a new one. -/
def upsert_metadata (s : Store) (user_id : String) (description : Option String)
    (tags : Option (List String)) (colors : Option (List String))
    (status : String) : Store :=
  match get_metadata s user_id with
  | some old =>
      let merged : MetaRecord :=
        ⟨status, mergeField description old.description,
         mergeField tags old.tags, mergeField colors old.colors⟩
      { s with metas := updateFirst user_id merged s.metas }
  | none =>
      { s with metas := s.metas ++ [(user_id, ⟨status, description, tags, colors⟩)] }

/-- Model of `update_thumbnail_path`: set `thumbnail_path` on the `images`
row. -/
def update_thumbnail_path (s : Store) (path : String) : Store :=
  { s with image := s.image.map (fun img => (img.1, some path)) }

/-! ### The orchestrator (image_processing_service.py) -/

/-- The exception sites of one `process_image` invocation, used to track
which raised exception reaches the `except` handler and the caller. -/
inductive Err : Type where
  | ownership
  | persistence
  | storageDownload
  | decodeThumbnail
  | uploadThumbnail
  | updateThumbPath
  | decodeColors
  | analyzer
deriving DecidableEq

/-- One observable collaborator call, with the identity of the callee and
whether the call succeeded. -/
inductive Event : Type where
  | verifyOwnership (user_id : String) (ok : Bool)
  | getMetadata (user_id : String)
  | metaUpsert (user_id : String) (description : Option String)
      (tags : Option (List String)) (colors : Option (List String))
      (status : String) (ok : Bool)
  | storageDownload (path : String) (ok : Bool)
  | codecThumbnail (ok : Bool)
  | storageUploadThumbnail (path : String) (ok : Bool)
  | metaUpdateThumbnailPath (path : String) (ok : Bool)
  | codecColors (ok : Bool)
  | analyzerCall (ok : Bool)
deriving DecidableEq

/-- Read-only process configuration (`config.py`): `THUMBNAIL_SIZE` and
`AI_TAG_COUNT` (defaults 300 and 8). -/
structure Settings : Type where
  thumbnail_size : Nat
  max_tags : Nat

/-- Oracles for the external collaborators of one invocation: Supabase
storage, PIL, the OpenAI client, `uuid.uuid4()`, and whether each
database write succeeds. -/
structure Env : Type where
  download : String → Except Unit Bytes
  createThumbnail : Bytes → Nat → Except Unit Bytes
  uploadThumbnailOk : Bool
  updateThumbnailPathOk : Bool
  quantize : Bytes → Except Unit QuantResult
  aiOutcome : Bytes → AIOutcome
  freshId : String
  upsertProcessingOk : Bool
  upsertCompletedOk : Bool
  upsertFailedOk : Bool

/-- The idempotency guard `existing and existing.get("ai_processing_status")
== "completed"`. -/
def isCompletedGuard : Option MetaRecord → Bool
  | some r => r.status == "completed"
  | none => false

/-- The body of the `try` block of `process_image` (lines 29-69): the
ownership check, the idempotency guard, and the pipeline.  Returns the
outcome, the resulting store, and the trace of collaborator calls. -/
def runBody (cfg : Settings) (env : Env) (user_id original_path : String)
    (s0 : Store) : Except Err Unit × Store × List Event :=
  let ownOk := verify_image_ownership s0 user_id
  if ownOk = false then
    (Except.error Err.ownership, s0, [Event.verifyOwnership user_id false])
  else
    let existing := get_metadata s0 user_id
    let tr1 := [Event.verifyOwnership user_id true, Event.getMetadata user_id]
    if isCompletedGuard existing = true then
      (Except.ok (), s0, tr1)
    else
      if env.upsertProcessingOk = false then
        (Except.error Err.persistence, s0,
         tr1 ++ [Event.metaUpsert user_id none none none "processing" false])
      else
        let s1 := upsert_metadata s0 user_id none none none "processing"
        let tr2 := tr1 ++ [Event.metaUpsert user_id none none none "processing" true]
        match env.download original_path with
        | Except.error _ =>
            (Except.error Err.storageDownload, s1,
             tr2 ++ [Event.storageDownload original_path false])
        | Except.ok original_bytes =>
          let tr3 := tr2 ++ [Event.storageDownload original_path true]
          match env.createThumbnail original_bytes cfg.thumbnail_size with
          | Except.error _ =>
              (Except.error Err.decodeThumbnail, s1, tr3 ++ [Event.codecThumbnail false])
          | Except.ok _thumbnail_bytes =>
            let tr4 := tr3 ++ [Event.codecThumbnail true]
            let thumbnail_path := user_id ++ "/thumbnails/" ++ env.freshId ++ ".jpg"
            if env.uploadThumbnailOk = false then
              (Except.error Err.uploadThumbnail, s1,
               tr4 ++ [Event.storageUploadThumbnail thumbnail_path false])
            else
              let tr5 := tr4 ++ [Event.storageUploadThumbnail thumbnail_path true]
              if env.updateThumbnailPathOk = false then
                (Except.error Err.updateThumbPath, s1,
                 tr5 ++ [Event.metaUpdateThumbnailPath thumbnail_path false])
              else
                let s2 := update_thumbnail_path s1 thumbnail_path
                let tr6 := tr5 ++ [Event.metaUpdateThumbnailPath thumbnail_path true]
                match env.quantize original_bytes with
                | Except.error _ =>
                    (Except.error Err.decodeColors, s2, tr6 ++ [Event.codecColors false])
                | Except.ok q =>
                  match extract_dominant_colors q 3 with
                  | Except.error _ =>
                      (Except.error Err.decodeColors, s2, tr6 ++ [Event.codecColors false])
                  | Except.ok colors =>
                    let tr7 := tr6 ++ [Event.codecColors true]
                    match analyze_image cfg.max_tags (env.aiOutcome original_bytes) with
                    | Except.error _ =>
                        (Except.error Err.analyzer, s2, tr7 ++ [Event.analyzerCall false])
                    | Except.ok (tags, descVal) =>
                      let tr8 := tr7 ++ [Event.analyzerCall true]
                      let description := coerceDescription descVal
                      if env.upsertCompletedOk = false then
                        (Except.error Err.persistence, s2,
                         tr8 ++ [Event.metaUpsert user_id (some description) (some tags)
                                   (some colors) "completed" false])
                      else
                        (Except.ok (),
                         upsert_metadata s2 user_id (some description) (some tags)
                           (some colors) "completed",
                         tr8 ++ [Event.metaUpsert user_id (some description) (some tags)
                                   (some colors) "completed" true])

/-- Model of `ImageProcessingService.process_image`: run the `try` body;
on any raised exception, attempt one best-effort write of status
`"failed"` (its own failure is logged and swallowed) and re-raise the
original exception. -/
def process_image (cfg : Settings) (env : Env) (user_id original_path : String)
    (s0 : Store) : Except Err Unit × Store × List Event :=
  match runBody cfg env user_id original_path s0 with
  | (Except.ok u, s, tr) => (Except.ok u, s, tr)
  | (Except.error e, s, tr) =>
      if env.upsertFailedOk = false then
        (Except.error e, s,
         tr ++ [Event.metaUpsert user_id none none none "failed" false])
      else
        (Except.error e, upsert_metadata s user_id none none none "failed",
         tr ++ [Event.metaUpsert user_id none none none "failed" true])

/-! ### Observables used by the claims -/

/-- Calls to the storage surface (download or thumbnail upload). -/
def isStorageEvent : Event → Bool
  | Event.storageDownload _ _ => true
  | Event.storageUploadThumbnail _ _ => true
  | _ => false

/-- Calls to the Vision Analyzer. -/
def isAnalyzerEvent : Event → Bool
  | Event.analyzerCall _ => true
  | _ => false

/-- Writes to the metadata store (metadata upsert or thumbnail-path
update), whether or not the write succeeded. -/
def isMetaWriteEvent : Event → Bool
  | Event.metaUpsert _ _ _ _ _ _ => true
  | Event.metaUpdateThumbnailPath _ _ => true
  | _ => false

/-- A successful metadata write carrying status `"completed"`. -/
def isCompletedWrite : Event → Bool
  | Event.metaUpsert _ _ _ _ st ok => st == "completed" && ok
  | _ => false

/-- An attempted metadata write carrying status `"failed"`. -/
def isFailedUpsert : Event → Bool
  | Event.metaUpsert _ _ _ _ st _ => st == "failed"
  | _ => false

/-- A hexadecimal digit character as produced by `%x` formatting. -/
def isHexDigitChar (c : Char) : Bool :=
  (48 ≤ c.toNat && c.toNat ≤ 57) || (97 ≤ c.toNat && c.toNat ≤ 102)

/-- A `#`-prefixed six-hex-digit color string. -/
def isValidHexColor (s : String) : Bool :=
  s.length == 7 && s.data.take 1 == ['#'] && (s.data.drop 1).all isHexDigitChar

/-- Writes of a thumbnail (storage upload or thumbnail-path update). -/
def isThumbnailWriteEvent : Event → Bool
  | Event.storageUploadThumbnail _ _ => true
  | Event.metaUpdateThumbnailPath _ _ => true
  | _ => false

/-! ### Concrete scenarios used to instantiate the theorems -/

/-- Default configuration: `THUMBNAIL_SIZE=300`, `AI_TAG_COUNT=8`. -/
def demoSettings : Settings := ⟨300, 8⟩

/-- A quantization outcome with three clusters: palette `[red, green,
blue]`, populations 250, 100, 50 (indices 1, 0, 2 by population). -/
def demoQuant : QuantResult :=
  ⟨[255, 0, 0, 0, 255, 0, 0, 0, 255], [(100, 1), (250, 0), (50, 2)]⟩

/-- A quantization outcome with a single cluster. -/
def demoQuantOne : QuantResult := ⟨[10, 20, 30], [(40000, 0)]⟩

/-- An analyzer response with twelve string tags, the first one carrying
surrounding whitespace. -/
def demoTags12 : List String :=
  [" a0 ", "a1", "a2", "a3", "a4", "a5", "a6", "a7", "a8", "a9", "a10", "a11"]

/-- The image belongs to `alice`; her metadata row is still `pending`. -/
def demoStore : Store :=
  ⟨some ("alice", none), [("alice", ⟨"pending", none, none, none⟩)]⟩

/-- The image belongs to `alice`; no metadata row exists yet. -/
def demoStoreNoMeta : Store := ⟨some ("alice", none), []⟩

/-- The image belongs to `alice`; her metadata row is already
`completed`. -/
def demoStoreDone : Store :=
  ⟨some ("alice", none),
   [("alice", ⟨"completed", some "old", some ["t"], some ["#aabbcc"]⟩)]⟩

/-- An environment in which every collaborator succeeds. -/
def demoEnv : Env :=
  ⟨fun _ => Except.ok [0, 1, 2],
   fun _ _ => Except.ok [7],
   true, true,
   fun _ => Except.ok demoQuant,
   fun _ => AIOutcome.body (Except.ok (JVal.obj
     [("description", JVal.str "a cat"),
      ("tags", JVal.arr [JVal.str "cat", JVal.str "pet"])])),
   "f1", true, true, true⟩

/-- An environment in which the storage download raises. -/
def demoEnvDown : Env :=
  ⟨fun _ => Except.error (),
   fun _ _ => Except.ok [7],
   true, true,
   fun _ => Except.ok demoQuant,
   fun _ => AIOutcome.body (Except.ok (JVal.obj
     [("description", JVal.str "a cat"),
      ("tags", JVal.arr [JVal.str "cat", JVal.str "pet"])])),
   "f1", true, true, true⟩

/-- An environment in which the OpenAI call raises. -/
def demoEnvAF : Env :=
  ⟨fun _ => Except.ok [0, 1, 2],
   fun _ _ => Except.ok [7],
   true, true,
   fun _ => Except.ok demoQuant,
   fun _ => AIOutcome.callFailed,
   "f1", true, true, true⟩

/-- An environment in which the analyzer returns twelve string tags. -/
def demoEnvTags : Env :=
  ⟨fun _ => Except.ok [0, 1, 2],
   fun _ _ => Except.ok [7],
   true, true,
   fun _ => Except.ok demoQuant,
   fun _ => AIOutcome.body (Except.ok (JVal.obj
     [("description", JVal.str "a cat"),
      ("tags", JVal.arr (demoTags12.map JVal.str))])),
   "f1", true, true, true⟩

/-- An environment in which quantization finds a single cluster. -/
def demoEnvOne : Env :=
  ⟨fun _ => Except.ok [0, 1, 2],
   fun _ _ => Except.ok [7],
   true, true,
   fun _ => Except.ok demoQuantOne,
   fun _ => AIOutcome.body (Except.ok (JVal.obj
     [("description", JVal.str "a cat"),
      ("tags", JVal.arr [JVal.str "cat", JVal.str "pet"])])),
   "f1", true, true, true⟩

/-! ### Helper lemmas about the metadata store -/

theorem find?_updateFirst (user_id : String) (r : MetaRecord)
    (l : List (String × MetaRecord)) (p0 : String × MetaRecord)
    (h : l.find? (fun p => p.1 == user_id) = some p0) :
    (updateFirst user_id r l).find? (fun p => p.1 == user_id) = some (user_id, r) := by
  induction l with
  | nil => simp at h
  | cons q qs ih =>
    by_cases hq : (q.1 == user_id) = true
    · simp [updateFirst, hq, List.find?]
    · rw [List.find?] at h
      simp only [hq] at h
      simp [updateFirst, hq, List.find?, ih h]

theorem get_metadata_upsert_found (s : Store) (user_id : String)
    (d : Option String) (t c : Option (List String)) (st : String)
    (old : MetaRecord) (h : get_metadata s user_id = some old) :
    get_metadata (upsert_metadata s user_id d t c st) user_id =
      some ⟨st, mergeField d old.description, mergeField t old.tags,
            mergeField c old.colors⟩ := by
  unfold upsert_metadata
  rw [h]
  unfold get_metadata at h ⊢
  obtain ⟨p0, hp0, hmap⟩ : ∃ p0, s.metas.find? (fun p => p.1 == user_id) = some p0 ∧ p0.2 = old := by
    cases hf : s.metas.find? (fun p => p.1 == user_id) with
    | none => rw [hf] at h; simp at h
    | some p0 => rw [hf] at h; simp at h; exact ⟨p0, rfl, h⟩
  simp [find?_updateFirst user_id _ s.metas p0 hp0]

theorem get_metadata_upsert_absent (s : Store) (user_id : String)
    (d : Option String) (t c : Option (List String)) (st : String)
    (h : get_metadata s user_id = none) :
    get_metadata (upsert_metadata s user_id d t c st) user_id =
      some ⟨st, d, t, c⟩ := by
  unfold upsert_metadata
  rw [h]
  unfold get_metadata at h ⊢
  have hf : s.metas.find? (fun p => p.1 == user_id) = none := by
    cases hf : s.metas.find? (fun p => p.1 == user_id) with
    | none => rfl
    | some p0 => rw [hf] at h; simp at h
  simp [List.find?_append, hf]

theorem get_metadata_update_thumbnail_path (s : Store) (p : String)
    (user_id : String) :
    get_metadata (update_thumbnail_path s p) user_id = get_metadata s user_id :=
  rfl

theorem image_upsert_metadata (s : Store) (user_id : String)
    (d : Option String) (t c : Option (List String)) (st : String) :
    (upsert_metadata s user_id d t c st).image = s.image := by
  unfold upsert_metadata
  cases get_metadata s user_id <;> rfl

/-! ### Helper lemmas about the color sort -/

theorem sortPairsDesc_perm (l : List (Nat × Nat)) :
    (sortPairsDesc l).Perm l :=
  List.perm_insertionSort PairGe l

theorem sortPairsDesc_sorted (l : List (Nat × Nat)) :
    List.Sorted PairGe (sortPairsDesc l) :=
  List.sorted_insertionSort PairGe l

theorem sortPairsDesc_length (l : List (Nat × Nat)) :
    (sortPairsDesc l).length = l.length :=
  (sortPairsDesc_perm l).length_eq

/-! ### Helper lemmas about hex formatting and color picking -/

set_option maxRecDepth 4096 in
theorem fmt02x_valid : ∀ n < 256,
    (fmt02x n).data.length = 2 ∧ ((fmt02x n).data.all isHexDigitChar) = true := by
  decide

theorem pickColor_valid (palette : List Nat) (i : Nat)
    (hlen : i * 3 + 3 ≤ palette.length)
    (hvals : ∀ v ∈ palette, v < 256) :
    ∃ c, pickColor palette i = Except.ok c ∧ isValidHexColor c = true := by
  unfold pickColor
  have hdl : (palette.drop (i * 3)).length = palette.length - i * 3 :=
    List.length_drop _ _
  match hd : palette.drop (i * 3) with
  | [] => rw [hd] at hdl; simp at hdl; omega
  | [r] => rw [hd] at hdl; simp at hdl; omega
  | [r, g] => rw [hd] at hdl; simp at hdl; omega
  | r :: g :: b :: rest =>
    refine ⟨_, rfl, ?_⟩
    have hmem : ∀ v ∈ palette.drop (i * 3), v < 256 := fun v hv =>
      hvals v (List.mem_of_mem_drop hv)
    rw [hd] at hmem
    have hr := fmt02x_valid r (hmem r (by simp))
    have hg := fmt02x_valid g (hmem g (by simp))
    have hb := fmt02x_valid b (hmem b (by simp))
    have hdata : ("#" ++ fmt02x r ++ fmt02x g ++ fmt02x b).data =
        '#' :: ((fmt02x r).data ++ (fmt02x g).data ++ (fmt02x b).data) := by
      simp [String.data_append]
    unfold isValidHexColor
    rw [show ("#" ++ fmt02x r ++ fmt02x g ++ fmt02x b).length
        = ("#" ++ fmt02x r ++ fmt02x g ++ fmt02x b).data.length from rfl, hdata]
    simp [List.all_append, List.length_append, hr.1, hg.1, hb.1, hr.2, hg.2, hb.2]

theorem pickColors_ok (palette : List Nat) (l : List (Nat × Nat))
    (hlen : ∀ p ∈ l, p.2 * 3 + 3 ≤ palette.length)
    (hvals : ∀ v ∈ palette, v < 256) :
    ∃ cs, pickColors palette l = Except.ok cs ∧ cs.length = l.length ∧
      (∀ c ∈ cs, isValidHexColor c = true) ∧
      List.Forall₂ (fun p c => pickColor palette p.2 = Except.ok c) l cs := by
  induction l with
  | nil => exact ⟨[], rfl, rfl, by simp, List.Forall₂.nil⟩
  | cons p ps ih =>
    obtain ⟨c, hc, hcv⟩ := pickColor_valid palette p.2 (hlen p (by simp)) hvals
    obtain ⟨cs, hcs, hlen2, hval2, hfa⟩ :=
      ih (fun q hq => hlen q (List.mem_cons_of_mem _ hq))
    refine ⟨c :: cs, ?_, by simp [hlen2], ?_, List.Forall₂.cons hc hfa⟩
    · unfold pickColors
      rw [hc, hcs]
      rfl
    · intro x hx
      rcases List.mem_cons.mp hx with h | h
      · exact h ▸ hcv
      · exact hval2 x h

/-! ### Characterizations of the pipeline body -/

theorem runBody_success_eq (cfg : Settings) (env : Env)
    (user_id original_path : String) (s0 : Store) (b tb : Bytes)
    (q : QuantResult) (cs tags : List String) (dv : JVal)
    (h1 : verify_image_ownership s0 user_id = true)
    (h2 : isCompletedGuard (get_metadata s0 user_id) = false)
    (h3 : env.upsertProcessingOk = true)
    (h4 : env.download original_path = Except.ok b)
    (h5 : env.createThumbnail b cfg.thumbnail_size = Except.ok tb)
    (h6 : env.uploadThumbnailOk = true)
    (h7 : env.updateThumbnailPathOk = true)
    (h8 : env.quantize b = Except.ok q)
    (h9 : extract_dominant_colors q 3 = Except.ok cs)
    (h10 : analyze_image cfg.max_tags (env.aiOutcome b) = Except.ok (tags, dv))
    (h11 : env.upsertCompletedOk = true) :
    runBody cfg env user_id original_path s0 =
      (Except.ok (),
       upsert_metadata
         (update_thumbnail_path
           (upsert_metadata s0 user_id none none none "processing")
           (user_id ++ "/thumbnails/" ++ env.freshId ++ ".jpg"))
         user_id (some (coerceDescription dv)) (some tags) (some cs) "completed",
       [Event.verifyOwnership user_id true, Event.getMetadata user_id,
        Event.metaUpsert user_id none none none "processing" true,
        Event.storageDownload original_path true,
        Event.codecThumbnail true,
        Event.storageUploadThumbnail (user_id ++ "/thumbnails/" ++ env.freshId ++ ".jpg") true,
        Event.metaUpdateThumbnailPath (user_id ++ "/thumbnails/" ++ env.freshId ++ ".jpg") true,
        Event.codecColors true,
        Event.analyzerCall true,
        Event.metaUpsert user_id (some (coerceDescription dv)) (some tags) (some cs)
          "completed" true]) := by
  simp [runBody, h1, h2, h3, h4, h5, h6, h7, h8, h9, h10, h11]

theorem runBody_trace_shape (cfg : Settings) (env : Env)
    (user_id original_path : String) (s0 : Store) (r : Except Err Unit)
    (s : Store) (tr : List Event)
    (h : runBody cfg env user_id original_path s0 = (r, s, tr)) :
    tr.filter isFailedUpsert = [] ∧
    (tr.filter isCompletedWrite = [] ∨
      (r = Except.ok () ∧ ∃ pre ev, tr = pre ++ [ev] ∧ isCompletedWrite ev = true ∧
        pre.filter isCompletedWrite = [])) := by
  simp only [runBody] at h
  repeat' split at h
  all_goals
    (injection h with hA h'
     injection h' with hB hC
     subst hA
     subst hB
     subst hC)
  all_goals
    refine ⟨by simp [isFailedUpsert], ?_⟩
  all_goals
    try (apply Or.inl; simp [isCompletedWrite]; done)
  all_goals
    (apply Or.inr
     refine ⟨rfl, _, _, rfl, ?_, ?_⟩ <;> simp [isCompletedWrite])

/-! ### Claim C1 -/

/-- Claim C1, counterexample: invoking `process_image` with a user that
does not own the image does abort with an ownership-violation error and
calls neither storage nor the analyzer, but it does NOT leave the
metadata store untouched: the handler catches the ownership `ValueError`
raised inside the `try` block and performs a metadata write that records
status `"failed"` (here inserting a row keyed by the non-owning user). -/
theorem claim_C1_counterexample :
    verify_image_ownership demoStore "bob" = false ∧
    (process_image demoSettings demoEnv "bob" "p.jpg" demoStore).1 =
      Except.error Err.ownership ∧
    ((process_image demoSettings demoEnv "bob" "p.jpg" demoStore).2.2.filter
      isMetaWriteEvent) ≠ [] ∧
    (process_image demoSettings demoEnv "bob" "p.jpg" demoStore).2.1 ≠ demoStore ∧
    get_metadata (process_image demoSettings demoEnv "bob" "p.jpg" demoStore).2.1
      "bob" = some ⟨"failed", none, none, none⟩ := by
  refine ⟨rfl, rfl, ?_, ?_, rfl⟩ <;> decide

/-- Claim C1, amended: when the ownership check fails, `process_image`
aborts with the ownership-violation error and never calls the storage
surface or the Vision Analyzer, but before re-raising it attempts one
best-effort metadata write setting status to `"failed"` (skipped only if
that write itself raises, in which case the store is unchanged). -/
theorem claim_C1 (cfg : Settings) (env : Env) (user_id original_path : String)
    (s0 : Store) (h : verify_image_ownership s0 user_id = false) :
    (env.upsertFailedOk = true →
      process_image cfg env user_id original_path s0 =
        (Except.error Err.ownership,
         upsert_metadata s0 user_id none none none "failed",
         [Event.verifyOwnership user_id false,
          Event.metaUpsert user_id none none none "failed" true])) ∧
    (env.upsertFailedOk = false →
      process_image cfg env user_id original_path s0 =
        (Except.error Err.ownership, s0,
         [Event.verifyOwnership user_id false,
          Event.metaUpsert user_id none none none "failed" false])) ∧
    (∀ r s tr, process_image cfg env user_id original_path s0 = (r, s, tr) →
      tr.filter (fun e => isStorageEvent e || isAnalyzerEvent e) = []) := by
  have hb : runBody cfg env user_id original_path s0 =
      (Except.error Err.ownership, s0, [Event.verifyOwnership user_id false]) := by
    simp [runBody, h]
  refine ⟨fun hf => ?_, fun hf => ?_, fun r s tr htr => ?_⟩
  · simp [process_image, hb, hf]
  · simp [process_image, hb, hf]
  · cases hf : env.upsertFailedOk <;>
      (simp [process_image, hb, hf] at htr
       obtain ⟨-, -, h3⟩ := htr
       rw [← h3]
       simp [isStorageEvent, isAnalyzerEvent])

/-- Claim C1, witness at a concrete non-owner invocation. -/
theorem claim_C1_witness :
    process_image demoSettings demoEnv "bob" "p.jpg" demoStore =
      (Except.error Err.ownership,
       upsert_metadata demoStore "bob" none none none "failed",
       [Event.verifyOwnership "bob" false,
        Event.metaUpsert "bob" none none none "failed" true]) :=
  (claim_C1 demoSettings demoEnv "bob" "p.jpg" demoStore (by decide)).1 (by decide)

/-! ### Claim C2 -/

/-- Claim C2, confirmed: when the guards pass and the body of the `try`
block raises, the handler attempts exactly one metadata write setting
status to `"failed"`; if that write itself raises, the store is left as
it was and the failure is swallowed; in either case the ORIGINAL
exception is re-raised to the caller. -/
theorem claim_C2 (cfg : Settings) (env : Env) (user_id original_path : String)
    (s0 : Store) (e : Err) (s : Store) (tr : List Event)
    (_hown : verify_image_ownership s0 user_id = true)
    (_hguard : isCompletedGuard (get_metadata s0 user_id) = false)
    (hrun : runBody cfg env user_id original_path s0 = (Except.error e, s, tr)) :
    (env.upsertFailedOk = true →
      process_image cfg env user_id original_path s0 =
        (Except.error e, upsert_metadata s user_id none none none "failed",
         tr ++ [Event.metaUpsert user_id none none none "failed" true])) ∧
    (env.upsertFailedOk = false →
      process_image cfg env user_id original_path s0 =
        (Except.error e, s,
         tr ++ [Event.metaUpsert user_id none none none "failed" false])) ∧
    ((tr ++ [Event.metaUpsert user_id none none none "failed"
        env.upsertFailedOk]).filter isFailedUpsert).length = 1 := by
  have hshape := runBody_trace_shape cfg env user_id original_path s0 _ _ _ hrun
  refine ⟨fun hf => ?_, fun hf => ?_, ?_⟩
  · simp [process_image, hrun, hf]
  · simp [process_image, hrun, hf]
  · simp [List.filter_append, hshape.1, isFailedUpsert]

/-- Claim C2, witness: a storage-download failure after the guards pass,
followed by the single `"failed"` write and the re-raised storage
error. -/
theorem claim_C2_witness :
    process_image demoSettings demoEnvDown "alice" "p.jpg" demoStore =
      (Except.error Err.storageDownload,
       upsert_metadata
         (upsert_metadata demoStore "alice" none none none "processing")
         "alice" none none none "failed",
       [Event.verifyOwnership "alice" true, Event.getMetadata "alice",
        Event.metaUpsert "alice" none none none "processing" true,
        Event.storageDownload "p.jpg" false] ++
       [Event.metaUpsert "alice" none none none "failed" true]) :=
  (claim_C2 demoSettings demoEnvDown "alice" "p.jpg" demoStore
    Err.storageDownload
    (upsert_metadata demoStore "alice" none none none "processing")
    [Event.verifyOwnership "alice" true, Event.getMetadata "alice",
     Event.metaUpsert "alice" none none none "processing" true,
     Event.storageDownload "p.jpg" false]
    (by decide) (by decide) (by rfl)).1 (by decide)

/-! ### Claim C3 -/

/-- Claim C3, confirmed: invoking `process_image` on an image whose
metadata record already has status `"completed"` (with the owning user)
returns immediately without error, leaves the store exactly unchanged,
and performs no metadata write, storage call, or analyzer call. -/
theorem claim_C3 (cfg : Settings) (env : Env) (user_id original_path : String)
    (s0 : Store) (r : MetaRecord)
    (hown : verify_image_ownership s0 user_id = true)
    (hmeta : get_metadata s0 user_id = some r)
    (hdone : r.status = "completed") :
    process_image cfg env user_id original_path s0 =
      (Except.ok (), s0,
       [Event.verifyOwnership user_id true, Event.getMetadata user_id]) ∧
    ([Event.verifyOwnership user_id true, Event.getMetadata user_id].filter
      (fun e => isMetaWriteEvent e || isStorageEvent e || isAnalyzerEvent e)) = [] := by
  have hguard : isCompletedGuard (get_metadata s0 user_id) = true := by
    rw [hmeta]
    simp [isCompletedGuard, hdone]
  constructor
  · have hb : runBody cfg env user_id original_path s0 =
        (Except.ok (), s0,
         [Event.verifyOwnership user_id true, Event.getMetadata user_id]) := by
      simp [runBody, hown, hguard]
    simp [process_image, hb]
  · simp [isMetaWriteEvent, isStorageEvent, isAnalyzerEvent]

/-- Claim C3, witness on a store whose metadata row is `completed`. -/
theorem claim_C3_witness :
    process_image demoSettings demoEnv "alice" "p.jpg" demoStoreDone =
      (Except.ok (), demoStoreDone,
       [Event.verifyOwnership "alice" true, Event.getMetadata "alice"]) :=
  (claim_C3 demoSettings demoEnv "alice" "p.jpg" demoStoreDone
    ⟨"completed", some "old", some ["t"], some ["#aabbcc"]⟩
    (by decide) (by decide) rfl).1

/-! ### Claim C6 -/

/-- Claim C6, confirmed.  First part: a successful run performs exactly
the pipeline's calls in order — guard reads, the `"processing"` write,
storage download, codec thumbnail, thumbnail upload together with the
thumbnail-path update, codec colors, the analyzer call, and finally the
metadata write with status `"completed"`.  Second part: in EVERY
execution, a successful write of status `"completed"` can only be the
very last call of a successfully returning invocation. -/
theorem claim_C6 (cfg : Settings) (env : Env) (user_id original_path : String)
    (s0 : Store) :
    (∀ (b tb : Bytes) (q : QuantResult) (cs tags : List String) (dv : JVal),
      verify_image_ownership s0 user_id = true →
      isCompletedGuard (get_metadata s0 user_id) = false →
      env.upsertProcessingOk = true →
      env.download original_path = Except.ok b →
      env.createThumbnail b cfg.thumbnail_size = Except.ok tb →
      env.uploadThumbnailOk = true →
      env.updateThumbnailPathOk = true →
      env.quantize b = Except.ok q →
      extract_dominant_colors q 3 = Except.ok cs →
      analyze_image cfg.max_tags (env.aiOutcome b) = Except.ok (tags, dv) →
      env.upsertCompletedOk = true →
      process_image cfg env user_id original_path s0 =
        (Except.ok (),
         upsert_metadata
           (update_thumbnail_path
             (upsert_metadata s0 user_id none none none "processing")
             (user_id ++ "/thumbnails/" ++ env.freshId ++ ".jpg"))
           user_id (some (coerceDescription dv)) (some tags) (some cs) "completed",
         [Event.verifyOwnership user_id true, Event.getMetadata user_id,
          Event.metaUpsert user_id none none none "processing" true,
          Event.storageDownload original_path true,
          Event.codecThumbnail true,
          Event.storageUploadThumbnail
            (user_id ++ "/thumbnails/" ++ env.freshId ++ ".jpg") true,
          Event.metaUpdateThumbnailPath
            (user_id ++ "/thumbnails/" ++ env.freshId ++ ".jpg") true,
          Event.codecColors true,
          Event.analyzerCall true,
          Event.metaUpsert user_id (some (coerceDescription dv)) (some tags)
            (some cs) "completed" true])) ∧
    (∀ (r : Except Err Unit) (s : Store) (tr : List Event),
      process_image cfg env user_id original_path s0 = (r, s, tr) →
      tr.filter isCompletedWrite = [] ∨
        (r = Except.ok () ∧ ∃ pre ev, tr = pre ++ [ev] ∧
          isCompletedWrite ev = true ∧ pre.filter isCompletedWrite = [])) := by
  constructor
  · intro b tb q cs tags dv h1 h2 h3 h4 h5 h6 h7 h8 h9 h10 h11
    have hb := runBody_success_eq cfg env user_id original_path s0 b tb q cs tags dv
      h1 h2 h3 h4 h5 h6 h7 h8 h9 h10 h11
    simp [process_image, hb]
  · intro r s tr htr
    rcases hrb : runBody cfg env user_id original_path s0 with ⟨r0, s0r, tr0⟩
    have hshape := runBody_trace_shape cfg env user_id original_path s0 r0 s0r tr0 hrb
    cases r0 with
    | ok u =>
      cases u
      have hpi : process_image cfg env user_id original_path s0 =
          (Except.ok (), s0r, tr0) := by
        simp [process_image, hrb]
      rw [hpi] at htr
      injection htr with hA h'
      injection h' with hB hC
      subst hA
      subst hB
      subst hC
      exact hshape.2
    | error e =>
      have htr0 : tr0.filter isCompletedWrite = [] := by
        rcases hshape.2 with hnone | ⟨hok, _⟩
        · exact hnone
        · exact Except.noConfusion hok
      cases hf : env.upsertFailedOk with
      | false =>
        have hpi : process_image cfg env user_id original_path s0 =
            (Except.error e, s0r,
             tr0 ++ [Event.metaUpsert user_id none none none "failed" false]) := by
          simp [process_image, hrb, hf]
        rw [hpi] at htr
        injection htr with hA h'
        injection h' with hB hC
        subst hA
        subst hB
        subst hC
        exact Or.inl (by simp [List.filter_append, htr0, isCompletedWrite])
      | true =>
        have hpi : process_image cfg env user_id original_path s0 =
            (Except.error e, upsert_metadata s0r user_id none none none "failed",
             tr0 ++ [Event.metaUpsert user_id none none none "failed" true]) := by
          simp [process_image, hrb, hf]
        rw [hpi] at htr
        injection htr with hA h'
        injection h' with hB hC
        subst hA
        subst hB
        subst hC
        exact Or.inl (by simp [List.filter_append, htr0, isCompletedWrite])

/-- Claim C6, witness: the concrete successful run and the shape of its
completed write. -/
theorem claim_C6_witness :
    (process_image demoSettings demoEnv "alice" "p.jpg" demoStore =
      (Except.ok (),
       upsert_metadata
         (update_thumbnail_path
           (upsert_metadata demoStore "alice" none none none "processing")
           ("alice" ++ "/thumbnails/" ++ demoEnv.freshId ++ ".jpg"))
         "alice" (some (coerceDescription (JVal.str "a cat")))
         (some ["cat", "pet"]) (some ["#ff0000", "#00ff00", "#0000ff"]) "completed",
       [Event.verifyOwnership "alice" true, Event.getMetadata "alice",
        Event.metaUpsert "alice" none none none "processing" true,
        Event.storageDownload "p.jpg" true,
        Event.codecThumbnail true,
        Event.storageUploadThumbnail
          ("alice" ++ "/thumbnails/" ++ demoEnv.freshId ++ ".jpg") true,
        Event.metaUpdateThumbnailPath
          ("alice" ++ "/thumbnails/" ++ demoEnv.freshId ++ ".jpg") true,
        Event.codecColors true,
        Event.analyzerCall true,
        Event.metaUpsert "alice" (some (coerceDescription (JVal.str "a cat")))
          (some ["cat", "pet"]) (some ["#ff0000", "#00ff00", "#0000ff"])
          "completed" true])) ∧
    ([Event.verifyOwnership "alice" true, Event.getMetadata "alice",
      Event.metaUpsert "alice" none none none "processing" true,
      Event.storageDownload "p.jpg" true,
      Event.codecThumbnail true,
      Event.storageUploadThumbnail "alice/thumbnails/f1.jpg" true,
      Event.metaUpdateThumbnailPath "alice/thumbnails/f1.jpg" true,
      Event.codecColors true,
      Event.analyzerCall true,
      Event.metaUpsert "alice" (some "a cat") (some ["cat", "pet"])
        (some ["#ff0000", "#00ff00", "#0000ff"]) "completed" true].filter
        isCompletedWrite = [] ∨
      ((Except.ok () : Except Err Unit) = Except.ok () ∧ ∃ pre ev,
        [Event.verifyOwnership "alice" true, Event.getMetadata "alice",
         Event.metaUpsert "alice" none none none "processing" true,
         Event.storageDownload "p.jpg" true,
         Event.codecThumbnail true,
         Event.storageUploadThumbnail "alice/thumbnails/f1.jpg" true,
         Event.metaUpdateThumbnailPath "alice/thumbnails/f1.jpg" true,
         Event.codecColors true,
         Event.analyzerCall true,
         Event.metaUpsert "alice" (some "a cat") (some ["cat", "pet"])
           (some ["#ff0000", "#00ff00", "#0000ff"]) "completed" true] =
          pre ++ [ev] ∧ isCompletedWrite ev = true ∧
        pre.filter isCompletedWrite = [])) :=
  ⟨(claim_C6 demoSettings demoEnv "alice" "p.jpg" demoStore).1
     [0, 1, 2] [7] demoQuant ["#ff0000", "#00ff00", "#0000ff"] ["cat", "pet"]
     (JVal.str "a cat") (by decide) (by decide) (by decide) rfl rfl
     (by decide) (by decide) rfl rfl rfl (by decide),
   (claim_C6 demoSettings demoEnv "alice" "p.jpg" demoStore).2
     (Except.ok ()) _ _ rfl⟩

/-! ### Claim C7 -/

/-- Claim C7, confirmed: when the guards pass and the storage download
raises, the invocation ends with metadata status `"failed"` (the failure
write succeeding), no thumbnail upload or thumbnail-path update happens,
no `"completed"` write happens, the `images` row is untouched, and the
failure write carries only the status: description, tags and colors keep
exactly their prior stored values. -/
theorem claim_C7 (cfg : Settings) (env : Env) (user_id original_path : String)
    (s0 : Store) (old : MetaRecord)
    (hown : verify_image_ownership s0 user_id = true)
    (hmeta : get_metadata s0 user_id = some old)
    (hne : old.status ≠ "completed")
    (hproc : env.upsertProcessingOk = true)
    (hdl : env.download original_path = Except.error ())
    (hfail : env.upsertFailedOk = true) :
    process_image cfg env user_id original_path s0 =
      (Except.error Err.storageDownload,
       upsert_metadata (upsert_metadata s0 user_id none none none "processing")
         user_id none none none "failed",
       [Event.verifyOwnership user_id true, Event.getMetadata user_id,
        Event.metaUpsert user_id none none none "processing" true,
        Event.storageDownload original_path false,
        Event.metaUpsert user_id none none none "failed" true]) ∧
    get_metadata
      (upsert_metadata (upsert_metadata s0 user_id none none none "processing")
        user_id none none none "failed") user_id =
      some ⟨"failed", old.description, old.tags, old.colors⟩ ∧
    (upsert_metadata (upsert_metadata s0 user_id none none none "processing")
      user_id none none none "failed").image = s0.image ∧
    ([Event.verifyOwnership user_id true, Event.getMetadata user_id,
      Event.metaUpsert user_id none none none "processing" true,
      Event.storageDownload original_path false,
      Event.metaUpsert user_id none none none "failed" true].filter
      (fun e => isThumbnailWriteEvent e || isCompletedWrite e)) = [] := by
  have hguard : isCompletedGuard (get_metadata s0 user_id) = false := by
    rw [hmeta]
    simpa [isCompletedGuard] using hne
  have hb : runBody cfg env user_id original_path s0 =
      (Except.error Err.storageDownload,
       upsert_metadata s0 user_id none none none "processing",
       [Event.verifyOwnership user_id true, Event.getMetadata user_id,
        Event.metaUpsert user_id none none none "processing" true,
        Event.storageDownload original_path false]) := by
    simp [runBody, hown, hguard, hproc, hdl]
  refine ⟨by simp [process_image, hb, hfail], ?_, ?_, ?_⟩
  · have h1 := get_metadata_upsert_found s0 user_id none none none "processing" old hmeta
    have h2 := get_metadata_upsert_found _ user_id none none none "failed" _ h1
    simpa [mergeField] using h2
  · rw [image_upsert_metadata, image_upsert_metadata]
  · simp [isThumbnailWriteEvent, isCompletedWrite]

/-- Claim C7, witness: the concrete download failure on the pending
store. -/
theorem claim_C7_witness :
    process_image demoSettings demoEnvDown "alice" "p.jpg" demoStore =
      (Except.error Err.storageDownload,
       upsert_metadata (upsert_metadata demoStore "alice" none none none "processing")
         "alice" none none none "failed",
       [Event.verifyOwnership "alice" true, Event.getMetadata "alice",
        Event.metaUpsert "alice" none none none "processing" true,
        Event.storageDownload "p.jpg" false,
        Event.metaUpsert "alice" none none none "failed" true]) ∧
    get_metadata
      (upsert_metadata (upsert_metadata demoStore "alice" none none none "processing")
        "alice" none none none "failed") "alice" =
      some ⟨"failed", none, none, none⟩ :=
  have h := claim_C7 demoSettings demoEnvDown "alice" "p.jpg" demoStore
    ⟨"pending", none, none, none⟩ (by decide) (by decide) (by decide)
    (by decide) rfl (by decide)
  ⟨h.1, h.2.1⟩

/-! ### Claim C10 -/

/-- Trace prefix after the guards pass: the `"processing"` write is
always performed. -/
theorem runBody_mem_processing (cfg : Settings) (env : Env)
    (user_id original_path : String) (s0 : Store)
    (r : Except Err Unit) (s : Store) (tr : List Event)
    (hown : verify_image_ownership s0 user_id = true)
    (hguard : isCompletedGuard (get_metadata s0 user_id) = false)
    (hproc : env.upsertProcessingOk = true)
    (h : runBody cfg env user_id original_path s0 = (r, s, tr)) :
    Event.metaUpsert user_id none none none "processing" true ∈ tr := by
  simp only [runBody, hown, hguard, hproc] at h
  simp only [Bool.true_eq_false, if_false, ite_false] at h
  repeat' split at h
  all_goals
    (injection h with hA h'
     injection h' with hB hC
     subst hC)
  all_goals simp_all

/-- Claim C10, confirmed: `upsert_metadata` on a missing metadata row
inserts a new row carrying the supplied status and optional fields
instead of failing; consequently `process_image` on an image with no
metadata record passes the idempotency guard, performs the `"processing"`
write, and that write creates a row with status `"processing"`. -/
theorem claim_C10 :
    (∀ (s : Store) (user_id : String) (d : Option String)
       (t c : Option (List String)) (st : String),
      get_metadata s user_id = none →
      get_metadata (upsert_metadata s user_id d t c st) user_id =
        some ⟨st, d, t, c⟩) ∧
    (∀ (cfg : Settings) (env : Env) (user_id original_path : String) (s0 : Store),
      verify_image_ownership s0 user_id = true →
      get_metadata s0 user_id = none →
      env.upsertProcessingOk = true →
      Event.metaUpsert user_id none none none "processing" true ∈
        (process_image cfg env user_id original_path s0).2.2 ∧
      get_metadata (upsert_metadata s0 user_id none none none "processing")
        user_id = some ⟨"processing", none, none, none⟩) := by
  constructor
  · intro s user_id d t c st h
    exact get_metadata_upsert_absent s user_id d t c st h
  · intro cfg env user_id original_path s0 hown hnone hproc
    have hguard : isCompletedGuard (get_metadata s0 user_id) = false := by
      rw [hnone]
      rfl
    constructor
    · rcases hrb : runBody cfg env user_id original_path s0 with ⟨r0, s0r, tr0⟩
      have hmem := runBody_mem_processing cfg env user_id original_path s0
        r0 s0r tr0 hown hguard hproc hrb
      cases r0 with
      | ok u =>
        cases u
        simpa [process_image, hrb] using hmem
      | error e =>
        cases hf : env.upsertFailedOk <;>
          (simp [process_image, hrb, hf, List.mem_append]
           exact hmem)
    · exact get_metadata_upsert_absent s0 user_id none none none "processing" hnone

/-- Claim C10, witness: a run on a store with no metadata row. -/
theorem claim_C10_witness :
    (get_metadata (upsert_metadata demoStoreNoMeta "alice" (some "d")
      (some ["t"]) (some ["#aabbcc"]) "pending") "alice" =
      some ⟨"pending", some "d", some ["t"], some ["#aabbcc"]⟩) ∧
    Event.metaUpsert "alice" none none none "processing" true ∈
      (process_image demoSettings demoEnv "alice" "p.jpg" demoStoreNoMeta).2.2 ∧
    get_metadata (upsert_metadata demoStoreNoMeta "alice" none none none
      "processing") "alice" = some ⟨"processing", none, none, none⟩ :=
  ⟨claim_C10.1 demoStoreNoMeta "alice" (some "d") (some ["t"]) (some ["#aabbcc"])
     "pending" (by decide),
   claim_C10.2 demoSettings demoEnv "alice" "p.jpg" demoStoreNoMeta
     (by decide) (by decide) (by decide)⟩

/-! ### Claim C9 -/

/-- Claim C9, confirmed: on any quantization result whose palette is
wellformed (every cluster index addresses a full palette triple, byte
values below 256), `extract_dominant_colors` succeeds and returns the hex
strings of the clusters ranked by pixel population descending (Python's
lexicographic tuple order on `(count, palette_index)`), with exactly
`min top_n (number of distinct quantized colors)` entries — fewer than
`top_n` exactly when the image has fewer distinct colors. -/
theorem claim_C9 (q : QuantResult) (top_n : Nat)
    (hlen : ∀ p ∈ q.colorCounts, p.2 * 3 + 3 ≤ q.palette.length)
    (hvals : ∀ v ∈ q.palette, v < 256) :
    ∃ cs, extract_dominant_colors q top_n = Except.ok cs ∧
      cs.length = min top_n q.colorCounts.length ∧
      (∀ c ∈ cs, isValidHexColor c = true) ∧
      List.Forall₂ (fun p c => pickColor q.palette p.2 = Except.ok c)
        ((sortPairsDesc q.colorCounts).take top_n) cs ∧
      (sortPairsDesc q.colorCounts).Perm q.colorCounts ∧
      List.Sorted PairGe (sortPairsDesc q.colorCounts) ∧
      List.Chain' (fun a b => b.1 ≤ a.1)
        ((sortPairsDesc q.colorCounts).take top_n) := by
  have hsub : ∀ p ∈ (sortPairsDesc q.colorCounts).take top_n,
      p.2 * 3 + 3 ≤ q.palette.length := fun p hp =>
    hlen p ((sortPairsDesc_perm q.colorCounts).subset
      (List.take_subset _ _ hp))
  obtain ⟨cs, hcs, hl, hv, hfa⟩ := pickColors_ok q.palette _ hsub hvals
  refine ⟨cs, hcs, ?_, hv, hfa, sortPairsDesc_perm _, sortPairsDesc_sorted _, ?_⟩
  · rw [hl, List.length_take, sortPairsDesc_length]
  · have hp : ((sortPairsDesc q.colorCounts).take top_n).Pairwise PairGe :=
      List.Pairwise.sublist (List.take_sublist _ _)
        (sortPairsDesc_sorted q.colorCounts)
    exact (hp.chain').imp (fun a b hab => by
      unfold PairGe at hab
      omega)

/-- Claim C9, witness on the three-cluster quantization result. -/
theorem claim_C9_witness :
    ∃ cs, extract_dominant_colors demoQuant 3 = Except.ok cs ∧
      cs.length = min 3 demoQuant.colorCounts.length ∧
      (∀ c ∈ cs, isValidHexColor c = true) ∧
      List.Forall₂ (fun p c => pickColor demoQuant.palette p.2 = Except.ok c)
        ((sortPairsDesc demoQuant.colorCounts).take 3) cs ∧
      (sortPairsDesc demoQuant.colorCounts).Perm demoQuant.colorCounts ∧
      List.Sorted PairGe (sortPairsDesc demoQuant.colorCounts) ∧
      List.Chain' (fun a b => b.1 ≤ a.1)
        ((sortPairsDesc demoQuant.colorCounts).take 3) :=
  claim_C9 demoQuant 3 (by decide) (by decide)

/-! ### Claim C5 -/

/-- Claim C5, counterexample: a fully successful run on an image that
quantizes to a single cluster persists a `colors` field with ONE entry,
not the requested three — "exactly the requested top-N entries" fails
whenever the image has fewer than N distinct quantized colors. -/
theorem claim_C5_counterexample :
    (process_image demoSettings demoEnvOne "alice" "p.jpg" demoStore).1 =
      Except.ok () ∧
    (get_metadata (process_image demoSettings demoEnvOne "alice" "p.jpg"
      demoStore).2.1 "alice").map (fun r => r.colors) =
      some (some ["#0a141e"]) ∧
    ¬ (["#0a141e"].length = 3) :=
  ⟨rfl, rfl, by decide⟩

/-- Claim C5, amended: on every successful run, the persisted `colors`
field is present and holds `min 3 (number of distinct quantized colors)`
entries — at most the requested three, and exactly three only when the
image has at least three distinct colors after quantization — each a
valid `#`-prefixed six-hex-digit string. -/
theorem claim_C5 (cfg : Settings) (env : Env) (user_id original_path : String)
    (s0 : Store) (b tb : Bytes) (q : QuantResult) (tags : List String)
    (dv : JVal) (old : MetaRecord)
    (hown : verify_image_ownership s0 user_id = true)
    (hmeta : get_metadata s0 user_id = some old)
    (hne : old.status ≠ "completed")
    (hproc : env.upsertProcessingOk = true)
    (hdl : env.download original_path = Except.ok b)
    (hth : env.createThumbnail b cfg.thumbnail_size = Except.ok tb)
    (hup : env.uploadThumbnailOk = true)
    (hupd : env.updateThumbnailPathOk = true)
    (hq : env.quantize b = Except.ok q)
    (hqlen : ∀ p ∈ q.colorCounts, p.2 * 3 + 3 ≤ q.palette.length)
    (hqvals : ∀ v ∈ q.palette, v < 256)
    (hai : analyze_image cfg.max_tags (env.aiOutcome b) = Except.ok (tags, dv))
    (hcomp : env.upsertCompletedOk = true) :
    ∃ (sF : Store) (tr : List Event) (cs : List String),
      process_image cfg env user_id original_path s0 = (Except.ok (), sF, tr) ∧
      get_metadata sF user_id =
        some ⟨"completed", some (coerceDescription dv), some tags, some cs⟩ ∧
      cs.length = min 3 q.colorCounts.length ∧
      cs.length ≤ 3 ∧
      (∀ c ∈ cs, isValidHexColor c = true) := by
  have hsub : ∀ p ∈ (sortPairsDesc q.colorCounts).take 3,
      p.2 * 3 + 3 ≤ q.palette.length := fun p hp =>
    hqlen p ((sortPairsDesc_perm q.colorCounts).subset
      (List.take_subset _ _ hp))
  obtain ⟨cs, hcs, hl, hv, -⟩ := pickColors_ok q.palette _ hsub hqvals
  have hguard : isCompletedGuard (get_metadata s0 user_id) = false := by
    rw [hmeta]
    simpa [isCompletedGuard] using hne
  have hb := runBody_success_eq cfg env user_id original_path s0 b tb q cs tags dv
    hown hguard hproc hdl hth hup hupd hq hcs hai hcomp
  have hpi : process_image cfg env user_id original_path s0 =
      (Except.ok (),
       upsert_metadata
         (update_thumbnail_path
           (upsert_metadata s0 user_id none none none "processing")
           (user_id ++ "/thumbnails/" ++ env.freshId ++ ".jpg"))
         user_id (some (coerceDescription dv)) (some tags) (some cs) "completed",
       [Event.verifyOwnership user_id true, Event.getMetadata user_id,
        Event.metaUpsert user_id none none none "processing" true,
        Event.storageDownload original_path true,
        Event.codecThumbnail true,
        Event.storageUploadThumbnail
          (user_id ++ "/thumbnails/" ++ env.freshId ++ ".jpg") true,
        Event.metaUpdateThumbnailPath
          (user_id ++ "/thumbnails/" ++ env.freshId ++ ".jpg") true,
        Event.codecColors true,
        Event.analyzerCall true,
        Event.metaUpsert user_id (some (coerceDescription dv)) (some tags)
          (some cs) "completed" true]) := by
    simp [process_image, hb]
  refine ⟨_, _, cs, hpi, ?_, ?_, ?_, hv⟩
  · have h1 := get_metadata_upsert_found s0 user_id none none none "processing"
      old hmeta
    rw [← get_metadata_update_thumbnail_path
      (upsert_metadata s0 user_id none none none "processing")
      (user_id ++ "/thumbnails/" ++ env.freshId ++ ".jpg") user_id] at h1
    have h2 := get_metadata_upsert_found _ user_id
      (some (coerceDescription dv)) (some tags) (some cs) "completed" _ h1
    simpa [mergeField] using h2
  · rw [hl, List.length_take, sortPairsDesc_length]
  · rw [hl, List.length_take, sortPairsDesc_length]
    omega

/-- Claim C5, witness: the single-cluster run persists one valid hex
color. -/
theorem claim_C5_witness :
    ∃ (sF : Store) (tr : List Event) (cs : List String),
      process_image demoSettings demoEnvOne "alice" "p.jpg" demoStore =
        (Except.ok (), sF, tr) ∧
      get_metadata sF "alice" =
        some ⟨"completed", some (coerceDescription (JVal.str "a cat")),
              some ["cat", "pet"], some cs⟩ ∧
      cs.length = min 3 demoQuantOne.colorCounts.length ∧
      cs.length ≤ 3 ∧
      (∀ c ∈ cs, isValidHexColor c = true) :=
  claim_C5 demoSettings demoEnvOne "alice" "p.jpg" demoStore
    [0, 1, 2] [7] demoQuantOne ["cat", "pet"] (JVal.str "a cat")
    ⟨"pending", none, none, none⟩
    (by decide) (by decide) (by decide) (by decide) rfl rfl
    (by decide) (by decide) rfl (by decide) (by decide) rfl (by decide)

/-! ### Claim C4 -/

/-- Claim C4, counterexample: a response body that IS valid JSON but
deviates from the expected structure — missing `description` and `tags`
keys, or wrongly-typed entries — does NOT make `analyze_image` fail: the
deviations are silently coerced (missing keys default to an empty list /
empty string, non-string tag entries are dropped, a non-string
description is passed through for the caller to coerce). -/
theorem claim_C4_counterexample :
    analyze_image 8 (AIOutcome.body (Except.ok (JVal.obj []))) =
      Except.ok ([], JVal.str "") ∧
    analyze_image 8 (AIOutcome.body (Except.ok (JVal.obj
      [("tags", JVal.arr [JVal.num 1, JVal.str "a"]),
       ("description", JVal.num 3)]))) = Except.ok (["a"], JVal.num 3) :=
  ⟨rfl, rfl⟩

/-- Claim C4, amended: `analyze_image` fails with a distinguishable error
when the analyzer call itself raises, when the body is not parseable as
JSON, when the parsed document is not a JSON object, or when its `tags`
value is not iterable; missing keys and non-string tag entries are
instead silently coerced.  Whenever `analyze_image` raises, the
orchestrator treats it as fatal: the pipeline invocation fails with the
analyzer error and the metadata status becomes `"failed"`. -/
theorem claim_C4 :
    (∀ max_tags : Nat,
      analyze_image max_tags AIOutcome.callFailed =
        Except.error AErr.apiFailure) ∧
    (∀ max_tags : Nat,
      analyze_image max_tags (AIOutcome.body (Except.error ())) =
        Except.error AErr.invalidJson) ∧
    (∀ (max_tags : Nat) (v : JVal), (∀ fields, v ≠ JVal.obj fields) →
      analyze_image max_tags (AIOutcome.body (Except.ok v)) =
        Except.error AErr.notAnObject) ∧
    (∀ (max_tags : Nat) (fields : List (String × JVal)) (n : Int),
      jlookup fields "tags" = some (JVal.num n) →
      analyze_image max_tags (AIOutcome.body (Except.ok (JVal.obj fields))) =
        Except.error AErr.tagsNotIterable) ∧
    (∀ (cfg : Settings) (env : Env) (user_id original_path : String)
       (s0 : Store) (b tb : Bytes) (q : QuantResult) (cs : List String)
       (old : MetaRecord) (ae : AErr),
      verify_image_ownership s0 user_id = true →
      get_metadata s0 user_id = some old →
      old.status ≠ "completed" →
      env.upsertProcessingOk = true →
      env.download original_path = Except.ok b →
      env.createThumbnail b cfg.thumbnail_size = Except.ok tb →
      env.uploadThumbnailOk = true →
      env.updateThumbnailPathOk = true →
      env.quantize b = Except.ok q →
      extract_dominant_colors q 3 = Except.ok cs →
      analyze_image cfg.max_tags (env.aiOutcome b) = Except.error ae →
      env.upsertFailedOk = true →
      ∃ sF : Store,
        process_image cfg env user_id original_path s0 =
          (Except.error Err.analyzer, sF,
           [Event.verifyOwnership user_id true, Event.getMetadata user_id,
            Event.metaUpsert user_id none none none "processing" true,
            Event.storageDownload original_path true,
            Event.codecThumbnail true,
            Event.storageUploadThumbnail
              (user_id ++ "/thumbnails/" ++ env.freshId ++ ".jpg") true,
            Event.metaUpdateThumbnailPath
              (user_id ++ "/thumbnails/" ++ env.freshId ++ ".jpg") true,
            Event.codecColors true,
            Event.analyzerCall false,
            Event.metaUpsert user_id none none none "failed" true]) ∧
        get_metadata sF user_id =
          some ⟨"failed", old.description, old.tags, old.colors⟩) := by
  refine ⟨fun _ => rfl, fun _ => rfl, ?_, ?_, ?_⟩
  · intro max_tags v hv
    cases v with
    | obj fields => exact absurd rfl (hv fields)
    | str s => rfl
    | num n => rfl
    | bool b => rfl
    | null => rfl
    | arr xs => rfl
  · intro max_tags fields n hfind
    simp [analyze_image, hfind, extractTags]
  · intro cfg env user_id original_path s0 b tb q cs old ae hown hmeta hne
      hproc hdl hth hup hupd hq hcs hai hfail
    have hguard : isCompletedGuard (get_metadata s0 user_id) = false := by
      rw [hmeta]
      simpa [isCompletedGuard] using hne
    have hb : runBody cfg env user_id original_path s0 =
        (Except.error Err.analyzer,
         update_thumbnail_path
           (upsert_metadata s0 user_id none none none "processing")
           (user_id ++ "/thumbnails/" ++ env.freshId ++ ".jpg"),
         [Event.verifyOwnership user_id true, Event.getMetadata user_id,
          Event.metaUpsert user_id none none none "processing" true,
          Event.storageDownload original_path true,
          Event.codecThumbnail true,
          Event.storageUploadThumbnail
            (user_id ++ "/thumbnails/" ++ env.freshId ++ ".jpg") true,
          Event.metaUpdateThumbnailPath
            (user_id ++ "/thumbnails/" ++ env.freshId ++ ".jpg") true,
          Event.codecColors true,
          Event.analyzerCall false]) := by
      simp [runBody, hown, hguard, hproc, hdl, hth, hup, hupd, hq, hcs, hai]
    have hpi : process_image cfg env user_id original_path s0 =
        (Except.error Err.analyzer,
         upsert_metadata
           (update_thumbnail_path
             (upsert_metadata s0 user_id none none none "processing")
             (user_id ++ "/thumbnails/" ++ env.freshId ++ ".jpg"))
           user_id none none none "failed",
         [Event.verifyOwnership user_id true, Event.getMetadata user_id,
          Event.metaUpsert user_id none none none "processing" true,
          Event.storageDownload original_path true,
          Event.codecThumbnail true,
          Event.storageUploadThumbnail
            (user_id ++ "/thumbnails/" ++ env.freshId ++ ".jpg") true,
          Event.metaUpdateThumbnailPath
            (user_id ++ "/thumbnails/" ++ env.freshId ++ ".jpg") true,
          Event.codecColors true,
          Event.analyzerCall false,
          Event.metaUpsert user_id none none none "failed" true]) := by
      simp [process_image, hb, hfail]
    refine ⟨_, hpi, ?_⟩
    have h1 := get_metadata_upsert_found s0 user_id none none none "processing"
      old hmeta
    rw [← get_metadata_update_thumbnail_path
      (upsert_metadata s0 user_id none none none "processing")
      (user_id ++ "/thumbnails/" ++ env.freshId ++ ".jpg") user_id] at h1
    have h2 := get_metadata_upsert_found _ user_id none none none "failed" _ h1
    simpa [mergeField] using h2

/-- Claim C4, witness: each distinguishable failure at a concrete input,
and the concrete analyzer-call failure marking the run `"failed"`. -/
theorem claim_C4_witness :
    analyze_image 8 AIOutcome.callFailed = Except.error AErr.apiFailure ∧
    analyze_image 8 (AIOutcome.body (Except.error ())) =
      Except.error AErr.invalidJson ∧
    analyze_image 8 (AIOutcome.body (Except.ok (JVal.num 5))) =
      Except.error AErr.notAnObject ∧
    analyze_image 8 (AIOutcome.body (Except.ok
      (JVal.obj [("tags", JVal.num 2)]))) =
      Except.error AErr.tagsNotIterable ∧
    (∃ sF : Store,
      process_image demoSettings demoEnvAF "alice" "p.jpg" demoStore =
        (Except.error Err.analyzer, sF,
         [Event.verifyOwnership "alice" true, Event.getMetadata "alice",
          Event.metaUpsert "alice" none none none "processing" true,
          Event.storageDownload "p.jpg" true,
          Event.codecThumbnail true,
          Event.storageUploadThumbnail
            ("alice" ++ "/thumbnails/" ++ demoEnvAF.freshId ++ ".jpg") true,
          Event.metaUpdateThumbnailPath
            ("alice" ++ "/thumbnails/" ++ demoEnvAF.freshId ++ ".jpg") true,
          Event.codecColors true,
          Event.analyzerCall false,
          Event.metaUpsert "alice" none none none "failed" true]) ∧
      get_metadata sF "alice" = some ⟨"failed", none, none, none⟩) :=
  ⟨claim_C4.1 8, claim_C4.2.1 8,
   claim_C4.2.2.1 8 (JVal.num 5) (fun fields h => JVal.noConfusion h),
   claim_C4.2.2.2.1 8 [("tags", JVal.num 2)] 2 rfl,
   claim_C4.2.2.2.2 demoSettings demoEnvAF "alice" "p.jpg" demoStore
     [0, 1, 2] [7] demoQuant ["#ff0000", "#00ff00", "#0000ff"]
     ⟨"pending", none, none, none⟩ AErr.apiFailure
     (by decide) (by decide) (by decide) (by decide) rfl rfl
     (by decide) (by decide) rfl rfl rfl (by decide)⟩

/-! ### Claim C8 -/

/-- Helper: the tag comprehension on an array of strings keeps every
entry, stripped, in order. -/
theorem extractTags_strs (l : List String) :
    extractTags (JVal.arr (l.map JVal.str)) = Except.ok (l.map pyStrip) := by
  have h : ∀ m : List String,
      (m.map JVal.str).filterMap (fun x =>
        match x with
        | JVal.str s => some (pyStrip s)
        | _ => none) = m.map pyStrip := by
    intro m
    induction m with
    | nil => rfl
    | cons x xs ih => simp [List.filterMap_cons, ih]
  simp [extractTags, h]

/-- Claim C8, counterexample: with twelve string tags and configured
maximum 8, the persisted sequence does have exactly 8 entries in order,
but they are the `strip()`ped forms of the response tags, not the
response tags verbatim: a tag carrying surrounding whitespace is altered
before persistence. -/
theorem claim_C8_counterexample :
    demoSettings.max_tags = 8 ∧
    demoTags12.length = 12 ∧
    (get_metadata (process_image demoSettings demoEnvTags "alice" "p.jpg"
      demoStore).2.1 "alice").map (fun r => r.tags) =
      some (some ["a0", "a1", "a2", "a3", "a4", "a5", "a6", "a7"]) ∧
    ["a0", "a1", "a2", "a3", "a4", "a5", "a6", "a7"] ≠ demoTags12.take 8 :=
  ⟨rfl, rfl, rfl, by decide⟩

/-- Claim C8, amended: for every analyzer response carrying twelve string
tags when the configured maximum is 8, the persisted tags sequence has
exactly 8 entries: the whitespace-stripped forms of the first 8 response
tags, in their original order. -/
theorem claim_C8 (cfg : Settings) (env : Env) (user_id original_path : String)
    (s0 : Store) (b tb : Bytes) (q : QuantResult) (cs : List String)
    (respTags : List String) (dsc : String) (old : MetaRecord)
    (hown : verify_image_ownership s0 user_id = true)
    (hmeta : get_metadata s0 user_id = some old)
    (hne : old.status ≠ "completed")
    (hproc : env.upsertProcessingOk = true)
    (hdl : env.download original_path = Except.ok b)
    (hth : env.createThumbnail b cfg.thumbnail_size = Except.ok tb)
    (hup : env.uploadThumbnailOk = true)
    (hupd : env.updateThumbnailPathOk = true)
    (hq : env.quantize b = Except.ok q)
    (hcs : extract_dominant_colors q 3 = Except.ok cs)
    (hmax : cfg.max_tags = 8)
    (h12 : respTags.length = 12)
    (hresp : env.aiOutcome b = AIOutcome.body (Except.ok (JVal.obj
      [("description", JVal.str dsc),
       ("tags", JVal.arr (respTags.map JVal.str))])))
    (hcomp : env.upsertCompletedOk = true) :
    ∃ (sF : Store) (tr : List Event),
      process_image cfg env user_id original_path s0 = (Except.ok (), sF, tr) ∧
      get_metadata sF user_id =
        some ⟨"completed", some dsc,
              some ((respTags.take 8).map pyStrip), some cs⟩ ∧
      ((respTags.take 8).map pyStrip).length = 8 := by
  have hai : analyze_image cfg.max_tags (env.aiOutcome b) =
      Except.ok ((respTags.take 8).map pyStrip, JVal.str dsc) := by
    rw [hresp, hmax]
    simp [analyze_image, jlookup, extractTags_strs, List.map_take]
  have hguard : isCompletedGuard (get_metadata s0 user_id) = false := by
    rw [hmeta]
    simpa [isCompletedGuard] using hne
  have hb := runBody_success_eq cfg env user_id original_path s0 b tb q cs
    ((respTags.take 8).map pyStrip) (JVal.str dsc)
    hown hguard hproc hdl hth hup hupd hq hcs hai hcomp
  have hpi : process_image cfg env user_id original_path s0 =
      (Except.ok (),
       upsert_metadata
         (update_thumbnail_path
           (upsert_metadata s0 user_id none none none "processing")
           (user_id ++ "/thumbnails/" ++ env.freshId ++ ".jpg"))
         user_id (some dsc) (some ((respTags.take 8).map pyStrip)) (some cs)
         "completed",
       [Event.verifyOwnership user_id true, Event.getMetadata user_id,
        Event.metaUpsert user_id none none none "processing" true,
        Event.storageDownload original_path true,
        Event.codecThumbnail true,
        Event.storageUploadThumbnail
          (user_id ++ "/thumbnails/" ++ env.freshId ++ ".jpg") true,
        Event.metaUpdateThumbnailPath
          (user_id ++ "/thumbnails/" ++ env.freshId ++ ".jpg") true,
        Event.codecColors true,
        Event.analyzerCall true,
        Event.metaUpsert user_id (some dsc)
          (some ((respTags.take 8).map pyStrip)) (some cs)
          "completed" true]) := by
    simp [process_image, hb, coerceDescription]
  refine ⟨_, _, hpi, ?_, ?_⟩
  · have h1 := get_metadata_upsert_found s0 user_id none none none "processing"
      old hmeta
    rw [← get_metadata_update_thumbnail_path
      (upsert_metadata s0 user_id none none none "processing")
      (user_id ++ "/thumbnails/" ++ env.freshId ++ ".jpg") user_id] at h1
    have h2 := get_metadata_upsert_found _ user_id (some dsc)
      (some ((respTags.take 8).map pyStrip)) (some cs) "completed" _ h1
    simpa [mergeField] using h2
  · rw [List.length_map, List.length_take, h12]
    omega

/-- Claim C8, witness: the concrete twelve-tag response persists exactly
the eight stripped leading tags. -/
theorem claim_C8_witness :
    ∃ (sF : Store) (tr : List Event),
      process_image demoSettings demoEnvTags "alice" "p.jpg" demoStore =
        (Except.ok (), sF, tr) ∧
      get_metadata sF "alice" =
        some ⟨"completed", some "a cat",
              some ((demoTags12.take 8).map pyStrip),
              some ["#ff0000", "#00ff00", "#0000ff"]⟩ ∧
      ((demoTags12.take 8).map pyStrip).length = 8 :=
  claim_C8 demoSettings demoEnvTags "alice" "p.jpg" demoStore
    [0, 1, 2] [7] demoQuant ["#ff0000", "#00ff00", "#0000ff"]
    demoTags12 "a cat" ⟨"pending", none, none, none⟩
    (by decide) (by decide) (by decide) (by decide) rfl rfl
    (by decide) (by decide) rfl rfl (by decide) (by decide) rfl (by decide)

end ImgAn
